import Mathlib

/-!
Shallow embedding of the websocket connection/broadcast core of the
Tamagotchi app (app/api/websocket.py): the `ConnectionManager` registry and
broadcast sweep, and the `WebSocketHandler` message dispatch, modelled as
pure Lean functions over explicit state, with outbound envelopes as
association lists of JSON values and collaborator calls (game engine, LLM
client) as `Except`-valued oracles.
-/

/-- A connection handle; identity (reference equality in Python) is modelled
by a natural number. -/
abbrev Conn := Nat

namespace ConnectionManager

/-- `ConnectionManager.connect` (websocket.py:14-18): `accept` then
`self.active_connections.append(websocket)` — an unconditional list append. -/
def connect (conns : List Conn) (ws : Conn) : List Conn :=
  conns ++ [ws]

/-- `ConnectionManager.disconnect` (websocket.py:20-24):
`if websocket in self.active_connections: self.active_connections.remove(websocket)`.
Python `list.remove` deletes the first occurrence; guarded by membership so it
never raises. -/
def disconnect (conns : List Conn) (ws : Conn) : List Conn :=
  if ws ∈ conns then conns.erase ws else conns

/-- `ConnectionManager.get_connection_count` (websocket.py:95-97):
`len(self.active_connections)`. -/
def get_connection_count (conns : List Conn) : Nat :=
  conns.length

/-- The send loop of `ConnectionManager.broadcast` (websocket.py:42-47): walk
the membership in order; a connection whose `send_text` fails (`fails c =
true`) is appended to the `disconnected` list, the others receive the
serialized envelope.  Returns (connections that received the envelope, in
send order, `disconnected`). The loop itself never mutates the registry. -/
def broadcastSweep (fails : Conn → Bool) : List Conn → List Conn × List Conn
  | [] => ([], [])
  | c :: rest =>
      let p := broadcastSweep fails rest
      if fails c then (p.1, c :: p.2) else (c :: p.1, p.2)

/-- Result of one `broadcast` call: which connections received the envelope
and the registry contents afterwards. -/
structure BroadcastResult where
  delivered : List Conn
  registry : List Conn
deriving Repr, DecidableEq

/-- `ConnectionManager.broadcast` (websocket.py:34-51): early return on an
empty registry; otherwise sweep every member, then — only after the loop has
completed — call `disconnect` on each member whose send failed. -/
def broadcast (conns : List Conn) (fails : Conn → Bool) : BroadcastResult :=
  if conns.isEmpty then { delivered := [], registry := conns }
  else
    let p := broadcastSweep fails conns
    { delivered := p.1, registry := p.2.foldl disconnect conns }

end ConnectionManager

namespace Registry

open ConnectionManager

/-- One registry operation, as named by the spec (§4.1): `register` is
`ConnectionManager.connect`, `deregister` is `ConnectionManager.disconnect`. -/
inductive RegOp where
  | register (c : Conn)
  | deregister (c : Conn)
deriving Repr, DecidableEq

/-- Apply one registry operation to the membership list. -/
def applyOp (conns : List Conn) : RegOp → List Conn
  | .register c => connect conns c
  | .deregister c => disconnect conns c

/-- Apply a sequence of registry operations, left to right. -/
def applySeq (conns : List Conn) (ops : List RegOp) : List Conn :=
  ops.foldl applyOp conns

/-- Modelled from the spec (§3, §4.1): the Connection Registry as "a set of
Connections, uniqueness enforced by identity" — `register` inserts only when
absent.  This is the spec-side reference semantics the list implementation is
compared against. -/
def specRegister (conns : List Conn) (c : Conn) : List Conn :=
  if c ∈ conns then conns else conns ++ [c]

/-- Spec-side application of one operation (set semantics for `register`,
same removal for `deregister`). -/
def specApply (conns : List Conn) : RegOp → List Conn
  | .register c => specRegister conns c
  | .deregister c => disconnect conns c

/-- Spec-side run of a sequence of operations. -/
def specRun (conns : List Conn) (ops : List RegOp) : List Conn :=
  ops.foldl specApply conns

/-- A run is guarded when no `register` in it targets a connection that is
currently a member (the call pattern of the app: `connect` is invoked exactly
once per freshly accepted websocket). -/
def guardedRun (conns : List Conn) : List RegOp → Bool
  | [] => true
  | .register c :: rest =>
      !(decide (c ∈ conns)) && guardedRun (connect conns c) rest
  | .deregister c :: rest =>
      guardedRun (disconnect conns c) rest

end Registry

/-! ### Wire envelopes and handler dispatch -/

/-- An opaque Pet State Snapshot; the core only reads `current_mood` and
serializes the rest via `to_dict()`, modelled as the whole value. -/
structure Snapshot where
  current_mood : String
deriving Repr, DecidableEq

/-- A JSON value as it appears in an outbound envelope field. -/
inductive JVal where
  | s (v : String)
  | b (v : Bool)
  | null
  | snap (v : Snapshot)
  | statChanges (v : List (String × Int))
deriving Repr, DecidableEq

/-- An outbound envelope: the JSON object as an ordered association list,
field by field as constructed in the source. -/
abbrev Envelope := List (String × JVal)

/-- `tamagotchi_state.to_dict() if tamagotchi_state else None`. -/
def dataVal : Option Snapshot → JVal
  | some st => .snap st
  | none => .null

/-- Python f-string / json field rendering of a possibly-absent string:
`None` renders as the string "None" inside an f-string. -/
def pyStr : Option String → String
  | some s => s
  | none => "None"

/-- JSON rendering of a possibly-absent string field (None serializes as
null). -/
def optStrVal : Option String → JVal
  | some s => .s s
  | none => .null

/-- Error envelope as built at websocket.py:159-163, 166-170, 173-177,
194-198: field order type, message, timestamp. -/
def errorEnv (msg ts : String) : Envelope :=
  [("type", .s "error"), ("message", .s msg), ("timestamp", .s ts)]

/-- Pong envelope (websocket.py:136-139). -/
def pongEnv (ts : String) : Envelope :=
  [("type", .s "pong"), ("timestamp", .s ts)]

/-- State-update envelope (websocket.py:55-59 and 144-148): type, timestamp,
data (snapshot or null). -/
def stateUpdateEnv (st : Option Snapshot) (ts : String) : Envelope :=
  [("type", .s "state_update"), ("timestamp", .s ts), ("data", dataVal st)]

/-- An Action Result as returned by the State Engine (success, message,
stat_changes; websocket.py:212-216). -/
structure ActionResult where
  success : Bool
  message : String
  stat_changes : List (String × Int)
deriving Repr, DecidableEq

/-- Action-result envelope (`broadcast_action_result`, websocket.py:62-73),
with the dict built at websocket.py:210-218 supplying every field the
receiver `get`s. -/
def actionResultEnv (action : Option String) (result : ActionResult)
    (response ts : String) : Envelope :=
  [("type", .s "action_result"), ("action", optStrVal action),
   ("timestamp", .s ts), ("success", .b result.success),
   ("message", .s result.message),
   ("stat_changes", .statChanges result.stat_changes),
   ("response", .s response)]

/-- Chat-message envelope (`broadcast_chat_message`, websocket.py:75-83). -/
def chatMessageEnv (response mood ts : String) : Envelope :=
  [("type", .s "chat_message"), ("timestamp", .s ts),
   ("response", .s response), ("mood", .s mood)]

/-- Welcome envelope (`send_welcome_message`, websocket.py:85-93): type,
timestamp, a fixed greeting in `message`, and the snapshot (or null) in
`data`. -/
def welcomeEnv (st : Option Snapshot) (ts : String) : Envelope :=
  [("type", .s "welcome"), ("timestamp", .s ts),
   ("message", .s "Connected to Tamagotchi!"), ("data", dataVal st)]

/-- One outbound delivery intent: a personal send to one connection
(`send_personal_message`) or a broadcast to every registered connection
(`broadcast`). -/
inductive Emit where
  | personal (dst : Conn) (env : Envelope)
  | toAll (env : Envelope)
deriving Repr, DecidableEq

/-- The State Engine collaborator, as an oracle: each entry point returns
its result or raises (modelled by `Except.error`). -/
structure Engine where
  feed : Except String ActionResult
  play : Except String ActionResult
  sleep : Except String ActionResult
  pet : Except String ActionResult
  revive : Except String ActionResult
  get_state : Except String (Option Snapshot)

/-- The Response Generator collaborator (`llm_client.get_response`): takes
the snapshot, the action, an optional action result and an optional user
message; returns a narrative string or raises. -/
structure LLM where
  get_response : Option Snapshot → Option String → Option ActionResult →
    Option String → Except String String

/-- A Python exception escaping the dispatch body: `json.JSONDecodeError`
from `json.loads`, `AttributeError` from calling `.get` on a non-dict, or
any exception raised by a collaborator call. -/
inductive PyErr where
  | jsonDecode
  | attrError
  | collab (e : String)
deriving Repr, DecidableEq

/-- Lift a collaborator call: its exception propagates as a generic
exception of the dispatch body. -/
def collabCall : Except String α → Except PyErr α
  | .ok a => .ok a
  | .error e => .error (.collab e)

/-- The result of one inbound frame parse (`json.loads(data)` then use as a
dict): the raw text is not JSON (`json.loads` raises `JSONDecodeError`), or
it is JSON but not an object (so `message.get(...)` raises
`AttributeError`), or it is an object with the fields the handler reads. -/
structure MsgObj where
  type? : Option String
  action? : Option String
  message? : Option String
deriving Repr, DecidableEq

/-- An inbound frame, after parsing. -/
inductive Inbound where
  | invalidJson
  | nonObject
  | object (m : MsgObj)
deriving Repr, DecidableEq

/-- What one dispatch did: the outbound deliveries it requested, in order,
and the State Engine entry points it invoked, in order. -/
structure DispatchOut where
  emits : List Emit
  engineCalls : List String
deriving Repr, DecidableEq

/-- The `if action == "feed": ... elif ...` ladder of
`handle_action_message` (websocket.py:183-192): the engine call selected by
the action name, or `none` when the action is unrecognized (including an
absent `action` field, where `message.get("action")` is `None`). -/
def engineAction (eng : Engine) (action : Option String) :
    Option (Except String ActionResult) :=
  if action = some "feed" then some eng.feed
  else if action = some "play" then some eng.play
  else if action = some "sleep" then some eng.sleep
  else if action = some "pet" then some eng.pet
  else if action = some "revive" then some eng.revive
  else none

/-- `WebSocketHandler.handle_action_message` (websocket.py:179-221).
Unrecognized action: broadcast an error naming the action and return.
Recognized: run the engine action, read the state, ask the LLM, then
broadcast the action result followed by the state update.  All emits happen
after every collaborator call, so a collaborator exception (`Except.error`)
leaves nothing emitted. -/
def handle_action_message (eng : Engine) (llm : LLM) (m : MsgObj)
    (ts : String) : Except PyErr DispatchOut :=
  let action := m.action?
  match engineAction eng action with
  | none => .ok { emits := [.toAll (errorEnv ("Unknown action: " ++ pyStr action) ts)],
                  engineCalls := [] }
  | some call => do
      let result ← collabCall call
      let current_state ← collabCall eng.get_state
      let llm_response ← collabCall (llm.get_response current_state action (some result) none)
      .ok { emits := [.toAll (actionResultEnv action result llm_response ts),
                      .toAll (stateUpdateEnv current_state ts)],
            engineCalls := [pyStr action, "get_state"] }

/-- `WebSocketHandler.handle_chat_message` (websocket.py:223-237): read the
state, ask the LLM with action "talk", broadcast a chat message carrying the
snapshot mood or the literal fallback string of the source. -/
def handle_chat_message (eng : Engine) (llm : LLM) (m : MsgObj)
    (ts : String) : Except PyErr DispatchOut :=
  let user_message := m.message?.getD ""
  do
    let current_state ← collabCall eng.get_state
    let llm_response ← collabCall
      (llm.get_response current_state (some "talk") none (some user_message))
    let mood := match current_state with
      | some st => st.current_mood
      | none => "üòê"
    .ok { emits := [.toAll (chatMessageEnv llm_response mood ts)],
          engineCalls := ["get_state"] }

/-- The `try` body of `WebSocketHandler.handle_client_message`
(websocket.py:130-163): parse, branch on `message.get("type")` by the
`if/elif` ladder.  A raw frame that is not JSON raises `JSONDecodeError`; a
JSON non-object raises `AttributeError` at `message.get("type")`. -/
def dispatchCore (eng : Engine) (llm : LLM) (ws : Conn) (ts : String) :
    Inbound → Except PyErr DispatchOut
  | .invalidJson => .error .jsonDecode
  | .nonObject => .error .attrError
  | .object m =>
      let message_type := m.type?
      if message_type = some "ping" then
        .ok { emits := [.personal ws (pongEnv ts)], engineCalls := [] }
      else if message_type = some "get_state" then do
        let current_state ← collabCall eng.get_state
        .ok { emits := [.personal ws (stateUpdateEnv current_state ts)],
              engineCalls := ["get_state"] }
      else if message_type = some "action" then
        handle_action_message eng llm m ts
      else if message_type = some "chat" then
        handle_chat_message eng llm m ts
      else
        .ok { emits := [.personal ws (errorEnv ("Unknown message type: " ++ pyStr message_type) ts)],
              engineCalls := [] }

/-- `WebSocketHandler.handle_client_message` (websocket.py:128-177): the
dispatch body wrapped in `except json.JSONDecodeError` (personal "Invalid
JSON format" error) and `except Exception` (personal "Internal server error"
error).  Total: no exception propagates out.  Engine calls made before an
exception are not recorded (no theorem reads them on these paths). -/
def handle_client_message (eng : Engine) (llm : LLM) (ws : Conn) (ts : String)
    (data : Inbound) : DispatchOut :=
  match dispatchCore eng llm ws ts data with
  | .ok out => out
  | .error .jsonDecode =>
      { emits := [.personal ws (errorEnv "Invalid JSON format" ts)], engineCalls := [] }
  | .error .attrError =>
      { emits := [.personal ws (errorEnv "Internal server error" ts)], engineCalls := [] }
  | .error (.collab _) =>
      { emits := [.personal ws (errorEnv "Internal server error" ts)], engineCalls := [] }

/-- Session loop state (`handle_websocket`, websocket.py:108-126). -/
inductive SessionState where
  | opened
  | closed
deriving Repr, DecidableEq

/-- One iteration of the session loop (websocket.py:116-126): a failed
`receive_text` (disconnect or any exception) deregisters the connection and
terminates the loop; a received frame is dispatched, the loop continues and
the registry is untouched by dispatch itself. -/
def sessionStep (eng : Engine) (llm : LLM) (registry : List Conn) (ws : Conn)
    (ts : String) (recv : Except Unit Inbound) :
    SessionState × List Conn × List Emit :=
  match recv with
  | .error _ => (.closed, ConnectionManager.disconnect registry ws, [])
  | .ok data => (.opened, registry, (handle_client_message eng llm ws ts data).emits)

/-- The connect phase of `handle_websocket` (websocket.py:110-114): register
the connection, then send the welcome envelope personally to it. -/
def sessionConnect (registry : List Conn) (ws : Conn) (st : Option Snapshot)
    (ts : String) : List Conn × List Emit :=
  (ConnectionManager.connect registry ws, [.personal ws (welcomeEnv st ts)])


/-- Sample Action Result used to instantiate theorems at concrete inputs. -/
def resFed : ActionResult :=
  { success := true, message := "Tama ate well!", stat_changes := [("hunger", 20)] }

/-- Sample snapshot used to instantiate theorems at concrete inputs. -/
def snapHappy : Snapshot := { current_mood := "happy" }

/-- A State Engine oracle whose calls all return normally. -/
def engOk : Engine :=
  { feed := .ok resFed, play := .ok resFed, sleep := .ok resFed,
    pet := .ok resFed, revive := .ok resFed,
    get_state := .ok (some snapHappy) }

/-- A State Engine oracle whose state read raises. -/
def engFail : Engine := { engOk with get_state := .error "boom" }

/-- A Response Generator oracle returning a fixed narrative. -/
def llmOk : LLM := { get_response := fun _ _ _ _ => .ok "woof" }

/-! ### Registry and broadcast lemmas -/

namespace ConnectionManager

theorem disconnect_eq_erase (conns : List Conn) (ws : Conn) :
    disconnect conns ws = conns.erase ws := by
  by_cases h : ws ∈ conns
  · simp [disconnect, h]
  · simp [disconnect, h, List.erase_of_not_mem h]

theorem broadcastSweep_eq (fails : Conn → Bool) (l : List Conn) :
    broadcastSweep fails l = (l.filter (fun c => !fails c), l.filter fails) := by
  induction l with
  | nil => rfl
  | cons c rest ih =>
      simp only [broadcastSweep, ih, List.filter_cons]
      cases h : fails c <;> simp [h]

theorem disconnect_of_not_mem {conns : List Conn} {ws : Conn}
    (h : ws ∉ conns) : disconnect conns ws = conns := by
  simp [disconnect, h]

theorem filter_beq_of_nodup {l : List Conn} {c : Conn}
    (hnd : l.Nodup) (hc : c ∈ l) : l.filter (fun x => x == c) = [c] := by
  induction l with
  | nil => cases hc
  | cons a rest ih =>
      rcases List.nodup_cons.mp hnd with ⟨ha, hrest⟩
      rcases List.mem_cons.mp hc with h | h
      · subst h
        have hnil : rest.filter (fun x => x == c) = [] := by
          rw [List.filter_eq_nil_iff]
          intro x hx
          simp only [beq_iff_eq]
          rintro rfl
          exact ha hx
        simp [List.filter_cons, hnil]
      · have hac : ¬(a = c) := by rintro rfl; exact ha h
        simp [List.filter_cons, hac, ih hrest h]

theorem broadcast_eq_of_mem {conns : List Conn} {c : Conn}
    (hc : c ∈ conns) (fails : Conn → Bool) :
    broadcast conns fails =
      { delivered := conns.filter (fun x => !fails x),
        registry := (conns.filter fails).foldl disconnect conns } := by
  have hne : conns.isEmpty = false := by
    cases conns with
    | nil => cases hc
    | cons a l => rfl
  simp [broadcast, hne, broadcastSweep_eq]

end ConnectionManager

namespace Registry

theorem guarded_applySeq_eq_specRun :
    ∀ (ops : List RegOp) (conns : List Conn),
      guardedRun conns ops = true → applySeq conns ops = specRun conns ops := by
  intro ops
  induction ops with
  | nil => intro conns _; rfl
  | cons op rest ih =>
      intro conns hg
      cases op with
      | register c =>
          simp only [guardedRun, Bool.and_eq_true, Bool.not_eq_true',
            decide_eq_false_iff_not] at hg
          have hstep : specApply conns (RegOp.register c) =
              ConnectionManager.connect conns c := by
            simp [specApply, specRegister, hg.1, ConnectionManager.connect]
          simp only [applySeq, specRun, List.foldl_cons]
          rw [hstep]
          exact ih (ConnectionManager.connect conns c) hg.2
      | deregister c =>
          simp only [guardedRun] at hg
          simp only [applySeq, specRun, List.foldl_cons, applyOp, specApply]
          exact ih (ConnectionManager.disconnect conns c) hg

theorem guarded_nodup :
    ∀ (ops : List RegOp) (conns : List Conn),
      conns.Nodup → guardedRun conns ops = true → (applySeq conns ops).Nodup := by
  intro ops
  induction ops with
  | nil => intro conns hnd _; exact hnd
  | cons op rest ih =>
      intro conns hnd hg
      cases op with
      | register c =>
          simp only [guardedRun, Bool.and_eq_true, Bool.not_eq_true',
            decide_eq_false_iff_not] at hg
          have hnd' : (ConnectionManager.connect conns c).Nodup := by
            refine List.Nodup.append hnd (List.nodup_singleton c) ?_
            intro a hal hac
            rcases List.mem_singleton.mp hac with rfl
            exact hg.1 hal
          simp only [applySeq, List.foldl_cons, applyOp]
          exact ih (ConnectionManager.connect conns c) hnd' hg.2
      | deregister c =>
          simp only [guardedRun] at hg
          have hnd' : (ConnectionManager.disconnect conns c).Nodup := by
            rw [ConnectionManager.disconnect_eq_erase]
            exact hnd.erase c
          simp only [applySeq, List.foldl_cons, applyOp]
          exact ih (ConnectionManager.disconnect conns c) hnd' hg

theorem disconnect_idem_of_nodup {conns : List Conn} (hnd : conns.Nodup)
    (c : Conn) :
    ConnectionManager.disconnect (ConnectionManager.disconnect conns c) c =
      ConnectionManager.disconnect conns c := by
  have hout : c ∉ ConnectionManager.disconnect conns c := by
    rw [ConnectionManager.disconnect_eq_erase]
    intro hmem
    exact absurd rfl (hnd.mem_erase_iff.mp hmem).1
  exact ConnectionManager.disconnect_of_not_mem hout

end Registry

namespace ConnectionManager

theorem count_filter_of_pos {p : Conn → Bool} {d : Conn} (hp : p d = true) :
    ∀ l : List Conn, (l.filter p).count d = l.count d := by
  intro l
  induction l with
  | nil => rfl
  | cons a rest ih =>
      by_cases had : a = d
      · subst had
        simp [List.filter_cons, hp, List.count_cons, ih]
      · cases hpa : p a <;>
          simp [List.filter_cons, hpa, List.count_cons, had, ih]

end ConnectionManager

/-! ### Claim theorems: registry and broadcast -/

/-- C1: if exactly one of N distinct registered connections fails on send
during a broadcast, every other connection receives exactly one copy of the
envelope (including the members after the failing one — no fail-fast), the
failing connection receives none and is removed from the registry only after
the sweep, and the connection count afterwards is N − 1. -/
theorem C1_broadcast_single_failure (conns : List Conn) (c : Conn)
    (hnd : conns.Nodup) (hc : c ∈ conns) :
    (∀ d ∈ conns, d ≠ c →
        (ConnectionManager.broadcast conns (fun x => x == c)).delivered.count d = 1) ∧
    c ∉ (ConnectionManager.broadcast conns (fun x => x == c)).delivered ∧
    ConnectionManager.get_connection_count
        (ConnectionManager.broadcast conns (fun x => x == c)).registry
      = conns.length - 1 ∧
    c ∉ (ConnectionManager.broadcast conns (fun x => x == c)).registry := by
  have hb := ConnectionManager.broadcast_eq_of_mem hc (fun x => x == c)
  have hdel : (ConnectionManager.broadcast conns (fun x => x == c)).delivered
      = conns.filter (fun x => !(x == c)) := by rw [hb]
  have hreg : (ConnectionManager.broadcast conns (fun x => x == c)).registry
      = conns.erase c := by
    rw [hb]
    simp only
    rw [ConnectionManager.filter_beq_of_nodup hnd hc]
    simp [ConnectionManager.disconnect_eq_erase]
  refine ⟨?_, ?_, ?_, ?_⟩
  · intro d hd hdc
    have hp : (!(d == c)) = true := by simp [hdc]
    rw [hdel, ConnectionManager.count_filter_of_pos hp conns]
    exact List.count_eq_one_of_mem hnd hd
  · rw [hdel]
    intro hmem
    have := (List.mem_filter.mp hmem).2
    simp at this
  · rw [hreg]
    exact List.length_erase_of_mem hc
  · rw [hreg]
    intro hmem
    exact absurd rfl (hnd.mem_erase_iff.mp hmem).1

theorem C1_broadcast_single_failure_witness :
    ([0, 1, 2] : List Conn).Nodup ∧ (1 : Conn) ∈ ([0, 1, 2] : List Conn) ∧
    ((∀ d ∈ ([0, 1, 2] : List Conn), d ≠ 1 →
        (ConnectionManager.broadcast [0, 1, 2] (fun x => x == 1)).delivered.count d = 1) ∧
     (1 : Conn) ∉ (ConnectionManager.broadcast [0, 1, 2] (fun x => x == 1)).delivered ∧
     ConnectionManager.get_connection_count
        (ConnectionManager.broadcast [0, 1, 2] (fun x => x == 1)).registry
       = ([0, 1, 2] : List Conn).length - 1 ∧
     (1 : Conn) ∉ (ConnectionManager.broadcast [0, 1, 2] (fun x => x == 1)).registry) :=
  ⟨by decide, by decide,
   C1_broadcast_single_failure [0, 1, 2] 1 (by decide) (by decide)⟩

/-- C3 counterexample: registering the same connection twice (the source
`connect` is an unconditional list append) yields a duplicate entry, so the
membership does not contain each connection at most once. -/
theorem C3_counterexample :
    Registry.applySeq [] [.register 0, .register 0] = [0, 0] ∧
    (Registry.applySeq [] [.register 0, .register 0]).count 0 = 2 ∧
    ¬ (Registry.applySeq [] [.register 0, .register 0]).Nodup := by
  decide

/-- C3 amended: for every sequence of register/deregister operations in which
no register targets a currently present connection (the app's actual call
pattern: one `connect` per freshly accepted websocket), the membership stays
duplicate-free, so `count` never counts a connection twice. -/
theorem C3_at_most_once_of_guarded (conns : List Conn)
    (ops : List Registry.RegOp) (hnd : conns.Nodup)
    (hg : Registry.guardedRun conns ops = true) :
    (Registry.applySeq conns ops).Nodup ∧
    ∀ c, (Registry.applySeq conns ops).count c ≤ 1 := by
  have hnd' := Registry.guarded_nodup ops conns hnd hg
  exact ⟨hnd', fun c => List.nodup_iff_count_le_one.mp hnd' c⟩

theorem C3_at_most_once_of_guarded_witness :
    ([] : List Conn).Nodup ∧
    Registry.guardedRun []
      [.register 0, .deregister 0, .register 0, .register 1] = true ∧
    ((Registry.applySeq []
        [.register 0, .deregister 0, .register 0, .register 1]).Nodup ∧
     ∀ c, (Registry.applySeq []
        [.register 0, .deregister 0, .register 0, .register 1]).count c ≤ 1) :=
  ⟨by decide, by decide,
   C3_at_most_once_of_guarded []
     [.register 0, .deregister 0, .register 0, .register 1]
     (by decide) (by decide)⟩

/-- C8 counterexample: after registering connection 0 twice, `count()` is 2
while only one distinct connection is still registered, and deregistering
twice removes both copies while deregistering once removes only one — so
neither the count equation nor deregister idempotence holds for unrestricted
sequences. -/
theorem C8_counterexample :
    Registry.applySeq [] [.register 0, .register 0] = [0, 0] ∧
    Registry.specRun [] [.register 0, .register 0] = [0] ∧
    ConnectionManager.get_connection_count
        (Registry.applySeq [] [.register 0, .register 0]) ≠
      (Registry.specRun [] [.register 0, .register 0]).length ∧
    ConnectionManager.disconnect
        (ConnectionManager.disconnect
          (Registry.applySeq [] [.register 0, .register 0]) 0) 0 ≠
      ConnectionManager.disconnect
        (Registry.applySeq [] [.register 0, .register 0]) 0 := by
  decide

/-- C8 amended: for every guarded sequence (no register of an
already-present connection, the app's actual call pattern), the list registry
coincides with the spec's set semantics, `count()` equals the number of
distinct still-registered connections, deregister is idempotent, and
deregistering an absent connection is a no-op. -/
theorem C8_count_of_guarded_runs (conns : List Conn)
    (ops : List Registry.RegOp) (hnd : conns.Nodup)
    (hg : Registry.guardedRun conns ops = true) :
    Registry.applySeq conns ops = Registry.specRun conns ops ∧
    ConnectionManager.get_connection_count (Registry.applySeq conns ops) =
      (Registry.specRun conns ops).length ∧
    (∀ c, ConnectionManager.disconnect
        (ConnectionManager.disconnect (Registry.applySeq conns ops) c) c =
      ConnectionManager.disconnect (Registry.applySeq conns ops) c) ∧
    (∀ c, c ∉ Registry.applySeq conns ops →
      ConnectionManager.disconnect (Registry.applySeq conns ops) c =
        Registry.applySeq conns ops) := by
  have heq := Registry.guarded_applySeq_eq_specRun ops conns hg
  have hnd' := Registry.guarded_nodup ops conns hnd hg
  exact ⟨heq, by rw [heq, ConnectionManager.get_connection_count],
    fun c => Registry.disconnect_idem_of_nodup hnd' c,
    fun c hc => ConnectionManager.disconnect_of_not_mem hc⟩

theorem C8_count_of_guarded_runs_witness :
    ([] : List Conn).Nodup ∧
    Registry.guardedRun []
      [.register 0, .register 1, .deregister 0, .deregister 5] = true ∧
    (Registry.applySeq [] [.register 0, .register 1, .deregister 0, .deregister 5] =
       Registry.specRun [] [.register 0, .register 1, .deregister 0, .deregister 5] ∧
     ConnectionManager.get_connection_count
        (Registry.applySeq [] [.register 0, .register 1, .deregister 0, .deregister 5]) =
       (Registry.specRun [] [.register 0, .register 1, .deregister 0, .deregister 5]).length ∧
     (∀ c, ConnectionManager.disconnect
        (ConnectionManager.disconnect
          (Registry.applySeq [] [.register 0, .register 1, .deregister 0, .deregister 5]) c) c =
       ConnectionManager.disconnect
        (Registry.applySeq [] [.register 0, .register 1, .deregister 0, .deregister 5]) c) ∧
     (∀ c, c ∉ Registry.applySeq [] [.register 0, .register 1, .deregister 0, .deregister 5] →
       ConnectionManager.disconnect
          (Registry.applySeq [] [.register 0, .register 1, .deregister 0, .deregister 5]) c =
         Registry.applySeq [] [.register 0, .register 1, .deregister 0, .deregister 5])) :=
  ⟨by decide, by decide,
   C8_count_of_guarded_runs []
     [.register 0, .register 1, .deregister 0, .deregister 5]
     (by decide) (by decide)⟩

/-! ### Claim theorems: message dispatch -/

/-- C2: for a dispatched message of type "action" whose action name is
recognized and whose collaborator calls return normally, dispatch emits
exactly two envelopes, both broadcasts derived from that invocation, with
the action-result broadcast strictly preceding the state-update broadcast. -/
theorem C2_action_result_before_state_update (eng : Engine) (llm : LLM)
    (ws : Conn) (ts : String) (a : String) (r : ActionResult)
    (st : Option Snapshot) (resp : String)
    (h1 : engineAction eng (some a) = some (.ok r))
    (h2 : eng.get_state = .ok st)
    (h3 : llm.get_response st (some a) (some r) none = .ok resp) :
    (handle_client_message eng llm ws ts
        (.object { type? := some "action", action? := some a, message? := none })).emits =
      [.toAll (actionResultEnv (some a) r resp ts),
       .toAll (stateUpdateEnv st ts)] ∧
    (actionResultEnv (some a) r resp ts).lookup "type" = some (.s "action_result") ∧
    (stateUpdateEnv st ts).lookup "type" = some (.s "state_update") := by
  refine ⟨?_, rfl, rfl⟩
  simp [handle_client_message, dispatchCore, handle_action_message,
    h1, h2, h3, collabCall, Except.bind, bind]

theorem C2_action_result_before_state_update_witness :
    engineAction engOk (some "feed") = some (.ok resFed) ∧
    engOk.get_state = .ok (some snapHappy) ∧
    llmOk.get_response (some snapHappy) (some "feed") (some resFed) none = .ok "woof" ∧
    ((handle_client_message engOk llmOk 7 "T"
        (.object { type? := some "action", action? := some "feed", message? := none })).emits =
      [.toAll (actionResultEnv (some "feed") resFed "woof" "T"),
       .toAll (stateUpdateEnv (some snapHappy) "T")] ∧
     (actionResultEnv (some "feed") resFed "woof" "T").lookup "type" = some (.s "action_result") ∧
     (stateUpdateEnv (some snapHappy) "T").lookup "type" = some (.s "state_update")) :=
  ⟨rfl, rfl, rfl,
   C2_action_result_before_state_update engOk llmOk 7 "T" "feed" resFed
     (some snapHappy) "woof" rfl rfl rfl⟩

/-- C4: a dispatched "action" message whose action name is not one of the
five recognized actions yields exactly one emitted envelope: an error
envelope naming the action, broadcast to all connections (not personal),
with no State Engine operation invoked. -/
theorem C4_unknown_action_broadcast (eng : Engine) (llm : LLM) (ws : Conn)
    (ts : String) (a : String)
    (ha : a ∉ ["feed", "play", "sleep", "pet", "revive"]) :
    handle_client_message eng llm ws ts
        (.object { type? := some "action", action? := some a, message? := none }) =
      { emits := [.toAll (errorEnv ("Unknown action: " ++ a) ts)],
        engineCalls := [] } := by
  simp only [List.mem_cons, List.not_mem_nil, or_false] at ha
  push_neg at ha
  obtain ⟨g1, g2, g3, g4, g5⟩ := ha
  have h5 : engineAction eng (some a) = none := by
    simp [engineAction, g1, g2, g3, g4, g5]
  simp [handle_client_message, dispatchCore, handle_action_message, h5, pyStr]

theorem C4_unknown_action_broadcast_witness :
    ("fly" : String) ∉ ["feed", "play", "sleep", "pet", "revive"] ∧
    handle_client_message engOk llmOk 7 "T"
        (.object { type? := some "action", action? := some "fly", message? := none }) =
      { emits := [.toAll (errorEnv ("Unknown action: " ++ "fly") "T")],
        engineCalls := [] } :=
  ⟨by decide, C4_unknown_action_broadcast engOk llmOk 7 "T" "fly" (by decide)⟩

/-- C5: when a State Engine or Response Generator call raises during
dispatch, the exception is caught at the dispatch boundary and becomes
exactly one personal error envelope with the generic internal-error message
to the originating connection; nothing is broadcast, nothing propagates, the
session stays open and the registry is untouched by this path. -/
theorem C5_collaborator_failure_personal_error (eng : Engine) (llm : LLM)
    (ws : Conn) (ts : String) (registry : List Conn) (m : Inbound) (e : String)
    (h : dispatchCore eng llm ws ts m = .error (.collab e)) :
    handle_client_message eng llm ws ts m =
      { emits := [.personal ws (errorEnv "Internal server error" ts)],
        engineCalls := [] } ∧
    sessionStep eng llm registry ws ts (.ok m) =
      (.opened, registry, [.personal ws (errorEnv "Internal server error" ts)]) := by
  have hm : handle_client_message eng llm ws ts m =
      { emits := [.personal ws (errorEnv "Internal server error" ts)],
        engineCalls := [] } := by
    simp [handle_client_message, h]
  exact ⟨hm, by simp [sessionStep, hm]⟩

theorem C5_collaborator_failure_personal_error_witness :
    dispatchCore engFail llmOk 7 "T"
        (.object { type? := some "get_state", action? := none, message? := none }) =
      .error (.collab "boom") ∧
    (handle_client_message engFail llmOk 7 "T"
        (.object { type? := some "get_state", action? := none, message? := none }) =
      { emits := [.personal 7 (errorEnv "Internal server error" "T")],
        engineCalls := [] } ∧
     sessionStep engFail llmOk [7, 8] 7 "T"
        (.ok (.object { type? := some "get_state", action? := none, message? := none })) =
      (.opened, [7, 8], [.personal 7 (errorEnv "Internal server error" "T")])) :=
  ⟨rfl, C5_collaborator_failure_personal_error engFail llmOk 7 "T" [7, 8]
     (.object { type? := some "get_state", action? := none, message? := none })
     "boom" rfl⟩

/-- C6: an inbound frame whose raw text is not valid JSON yields exactly one
personal error envelope with the fixed diagnostic "Invalid JSON format" to
the originating connection, no broadcast, no exception, and the session loop
continues with the registry unchanged. -/
theorem C6_invalid_json_personal_error (eng : Engine) (llm : LLM) (ws : Conn)
    (ts : String) (registry : List Conn) :
    handle_client_message eng llm ws ts .invalidJson =
      { emits := [.personal ws (errorEnv "Invalid JSON format" ts)],
        engineCalls := [] } ∧
    sessionStep eng llm registry ws ts (.ok .invalidJson) =
      (.opened, registry, [.personal ws (errorEnv "Invalid JSON format" ts)]) :=
  ⟨rfl, rfl⟩

/-- C9: an inbound frame that is valid JSON but not a JSON object takes the
generic internal-error path (the `.get` attribute error is caught by the
generic handler, not the JSON-decode handler): exactly one personal error
envelope with "Internal server error" — a different envelope than the
invalid-JSON diagnostic — no broadcast, session continues, registry
unchanged. -/
theorem C9_non_object_internal_error (eng : Engine) (llm : LLM) (ws : Conn)
    (ts : String) (registry : List Conn) :
    handle_client_message eng llm ws ts .nonObject =
      { emits := [.personal ws (errorEnv "Internal server error" ts)],
        engineCalls := [] } ∧
    errorEnv "Internal server error" ts ≠ errorEnv "Invalid JSON format" ts ∧
    sessionStep eng llm registry ws ts (.ok .nonObject) =
      (.opened, registry, [.personal ws (errorEnv "Internal server error" ts)]) := by
  refine ⟨rfl, ?_, rfl⟩
  simp [errorEnv]

/-- C10: a dispatched "action" message whose payload lacks the "action"
field behaves as the unrecognized action None: one broadcast error envelope
whose message names "None", no State Engine call, and no personal
malformed-input error. -/
theorem C10_missing_action_field (eng : Engine) (llm : LLM) (ws : Conn)
    (ts : String) :
    handle_client_message eng llm ws ts
        (.object { type? := some "action", action? := none, message? := none }) =
      { emits := [.toAll (errorEnv "Unknown action: None" ts)],
        engineCalls := [] } := by
  simp [handle_client_message, dispatchCore, handle_action_message,
    engineAction, pyStr]

/-- C7 counterexample: the welcome envelope also carries the fixed greeting
field "message", so its field set is not exactly type, timestamp, data. -/
theorem C7_counterexample :
    (welcomeEnv none "2025-01-01T00:00:00").map Prod.fst ≠
      ["type", "timestamp", "data"] ∧
    "message" ∈ (welcomeEnv none "2025-01-01T00:00:00").map Prod.fst := by
  decide

/-- C7 amended: the welcome envelope is sent personally to exactly the newly
joined connection and carries the current snapshot (or null) in its "data"
field, but its fields are exactly type, timestamp, message, data: the fixed
greeting "message" field is present in addition to "data". -/
theorem C7_welcome_fields (registry : List Conn) (ws : Conn)
    (st : Option Snapshot) (ts : String) :
    (sessionConnect registry ws st ts).2 = [.personal ws (welcomeEnv st ts)] ∧
    (welcomeEnv st ts).map Prod.fst = ["type", "timestamp", "message", "data"] ∧
    (welcomeEnv st ts).lookup "data" = some (dataVal st) ∧
    (welcomeEnv st ts).lookup "type" = some (.s "welcome") :=
  ⟨rfl, rfl, rfl, rfl⟩
